import Mathlib

/-!
Verification of the gradient-based explanation utilities in
`omnixai/explainers/vision/specific/utils.py`: the image rescaler
(`GradMixin._resize`), the SmoothGrad engines (`_smooth_grad_torch`,
`_smooth_grad_tf`), the framework dispatcher (`smooth_grad`) and the
guided-backprop engine (`_guided_bp_torch`).

Numeric values carried by tensors and numpy arrays are modelled by
rationals; arrays are modelled as a shape together with the row-major
flattened list of entries, exactly mirroring numpy layout.
-/

/-- Kinds of Python exceptions that the module can raise. -/
inductive PyErr where
  | assertionError
  | valueError (msg : String)
  | axisError
  | indexError
  | zeroDivisionError
deriving DecidableEq, Repr

/-- A numpy `ndarray` (or a framework tensor already converted to one):
a shape together with the row-major flattened data. -/
structure NDArray where
  shape : List Nat
  data : List ℚ
deriving DecidableEq, Repr

/-- Read the flattened data at a flat index (`0` outside range, used only
at in-range indices by the operations below). -/
def NDArray.getFlat (a : NDArray) (i : Nat) : ℚ :=
  a.data.getD i 0

/-- `np.squeeze`: drop every axis of size 1; the row-major data is
unchanged. -/
def NDArray.squeeze (a : NDArray) : NDArray :=
  ⟨a.shape.filter (fun d => d ≠ 1), a.data⟩

/-- `np.min` over the whole array (arrays are assumed nonempty, as in the
source). -/
def NDArray.npMin (a : NDArray) : ℚ :=
  a.data.foldl min (a.data.headD 0)

/-- `np.max` over the whole array. -/
def NDArray.npMax (a : NDArray) : ℚ :=
  a.data.foldl max (a.data.headD 0)

/-- `np.transpose(x, (1, 2, 0))` on a 3-dimensional array of shape
`(c, h, w)`, giving shape `(h, w, c)`; errors when the array is not
3-dimensional, as numpy does. -/
def NDArray.transpose120 (a : NDArray) : Except PyErr NDArray :=
  match a.shape with
  | [c, h, w] =>
      .ok ⟨[h, w, c], (List.range (h * w * c)).map fun t =>
        let k := t % c
        let j := t / c % w
        let i := t / c / w
        a.getFlat ((k * h + i) * w + j)⟩
  | _ => .error .axisError

/-- `np.transpose(x, (0, 2, 3, 1))` on a 4-dimensional array of shape
`(n, c, h, w)`, giving shape `(n, h, w, c)`. -/
def NDArray.transpose0231 (a : NDArray) : Except PyErr NDArray :=
  match a.shape with
  | [n, c, h, w] =>
      .ok ⟨[n, h, w, c], (List.range (n * h * w * c)).map fun t =>
        let k := t % c
        let j := t / c % w
        let i := t / c / w % h
        let b := t / c / w / h
        a.getFlat (((b * c + k) * h + i) * w + j)⟩
  | _ => .error .axisError

/-- Elementwise map over an array. -/
def NDArray.emap (f : ℚ → ℚ) (a : NDArray) : NDArray :=
  ⟨a.shape, a.data.map f⟩

/-- Elementwise addition of two same-shaped arrays (the only way the
source combines arrays). -/
def NDArray.add (a b : NDArray) : NDArray :=
  ⟨a.shape, List.zipWith (· + ·) a.data b.data⟩

/-- Elementwise product of two same-shaped arrays. -/
def NDArray.mul (a b : NDArray) : NDArray :=
  ⟨a.shape, List.zipWith (· * ·) a.data b.data⟩

/-- Multiplication of an array by a scalar. -/
def NDArray.smul (c : ℚ) (a : NDArray) : NDArray :=
  ⟨a.shape, a.data.map fun v => c * v⟩

/-- `x.astype(int)` on a float entry: C-style cast, truncation toward
zero. -/
def astypeInt (q : ℚ) : ℤ :=
  Int.tdiv q.num (q.den : ℤ)

/-- Modelled from the spec: the raw image container `omnixai.data.image.Image`
(its source is not part of this repository). The spec describes it as "an
image container holding pixel data, a batch flag, and a channel-order
flag", exposing `.shape` and `.to_numpy()`, with `len` giving the number
of instances (the leading shape dimension). -/
structure Image where
  data : NDArray
  batched : Bool
  channelLast : Bool
deriving DecidableEq, Repr

/-- `image.shape`. -/
def Image.shape (img : Image) : List Nat :=
  img.data.shape

/-- `image.to_numpy()`. -/
def Image.toNumpy (img : Image) : NDArray :=
  img.data

/-- `len(X)`: the number of instances, the leading shape dimension. -/
def Image.pyLen (img : Image) : Nat :=
  img.shape.headD 0

/-- The Python constant `1e-8` used in `_resize`. -/
def epsResize : ℚ := 1 / 100000000

/-- The squeeze-then-maybe-transpose step of `_resize`:
`x = x.squeeze(); if x.shape[0] == 3: x = np.transpose(x, (1, 2, 0))`. -/
def squeezeTranspose (x0 : NDArray) : Except PyErr NDArray :=
  let x := x0.squeeze
  if x.shape.headD 0 = 3 then x.transpose120 else .ok x

namespace GradMixin

/-- `GradMixin._resize(preprocess_function, image)`: asserts the image
holds exactly one instance; returns the image itself when no
preprocessing function is given; otherwise converts the preprocessed
tensor to a numpy array, squeezes it, moves a leading channel axis of
size 3 to the back, and maps it affinely from its own value range onto
the raw image's value range, casting to integers.  (The preprocessing
function is modelled as already producing an `NDArray`; the source's
tensor-to-numpy conversion fallback is conversion glue with no numeric
effect.) -/
def _resize (preprocess_function : Option (Image → NDArray)) (image : Image) :
    Except PyErr Image :=
  if image.shape.headD 0 ≠ 1 then .error .assertionError
  else
    match preprocess_function with
    | none => .ok image
    | some f =>
        let y := image.toNumpy
        match squeezeTranspose (f image) with
        | .error e => .error e
        | .ok x =>
            let min_a := y.npMin
            let max_a := y.npMax
            let min_b := x.npMin
            let max_b := x.npMax
            let r := (max_a - min_a) / (max_b - min_b + epsResize)
            .ok ⟨x.emap fun v => ((astypeInt (r * v + min_a - r * min_b) : ℤ) : ℚ),
                 false, true⟩

end GradMixin

/-- `np.argmax` over one row: the index of the first occurrence of the
maximum (numpy returns the first maximal index). -/
def argmaxList (xs : List ℚ) : Nat :=
  match xs with
  | [] => 0
  | h :: t =>
      (t.foldl
        (fun acc v =>
          if acc.2.1 < v then (acc.2.2, v, acc.2.2 + 1)
          else (acc.1, acc.2.1, acc.2.2 + 1))
        ((0 : Nat), h, (1 : Nat))).1

/-- `np.argmax(scores, axis=-1).astype(int)` (equivalently `axis=1`) for a
2-dimensional score array of shape `(n, c)`: one label per row. -/
def npArgmaxLast (a : NDArray) : List ℤ :=
  match a.shape with
  | [n, c] => (List.range n).map fun i => ((argmaxList ((a.data.drop (i * c)).take c) : ℕ) : ℤ)
  | _ => []

/-- The Python parameter `y`: `None`, a single `int`, or a sequence of
labels. -/
inductive YParam where
  | none
  | int (k : ℤ)
  | seq (ys : List ℤ)
deriving DecidableEq, Repr

/-- The label-resolution block shared verbatim by `_smooth_grad_torch`
(lines 62-75), `_smooth_grad_tf` (lines 113-126) and `_guided_bp_torch`
(lines 209-222): in classification mode an integer `y` is broadcast to one
label per image, a sequence must have length `len(X)` (assertion error
otherwise), and an absent `y` is inferred as the arg-max of the baseline
model output; in any other mode `y` is cleared to `None`. -/
def resolveLabels (mode : String) (y : YParam) (numImages : Nat)
    (baselineOutputs : NDArray) : Except PyErr (Option (List ℤ)) :=
  if mode = "classification" then
    match y with
    | YParam.int k => .ok (some (List.replicate numImages k))
    | YParam.seq ys =>
        if numImages = ys.length then .ok (some ys) else .error .assertionError
    | YParam.none => .ok (some (npArgmaxLast baselineOutputs))
  else
    .ok Option.none

/-- The working input tensor: `preprocess_function(X) if preprocess_function
is not None else X.to_numpy()` (the tensor coercion keeps the values). -/
def workingInputs (preprocess_function : Option (Image → NDArray)) (X : Image) :
    NDArray :=
  match preprocess_function with
  | some f => f X
  | none => X.toNumpy

/-- `gradients = 0` followed by `gradients += grad` over the loop: the
elementwise sum of the accumulated per-iteration gradient arrays (adding
the scalar `0` to the first array leaves it unchanged). -/
def accumGrads : List NDArray → NDArray
  | [] => ⟨[], []⟩
  | g :: t => t.foldl NDArray.add g

/-- The arithmetic mean of a list of same-shaped arrays. -/
def meanNDArrays (l : List NDArray) : NDArray :=
  (accumGrads l).smul (1 / (l.length : ℚ))

/-- The per-iteration gradients of the SmoothGrad loop: iteration `i`
perturbs the working input by `noises i` (a standard-normal draw of the
input's shape) scaled by the effective sigma, and takes the gradient of
the (label-selected) model output with respect to that perturbed input.
The automatic-differentiation engine is the abstract oracle
`gradOracle`. -/
def perIterGrads (gradOracle : NDArray → Option (List ℤ) → NDArray)
    (noises : Nat → NDArray) (inputImages : NDArray) (sigmaEff : ℚ)
    (labels : Option (List ℤ)) (num_samples : Nat) : List NDArray :=
  (List.range num_samples).map fun i =>
    gradOracle (inputImages.add ((noises i).smul sigmaEff)) labels

/-- `_smooth_grad_torch`: resolve labels from the baseline forward pass,
scale sigma by the input's value range, average the per-iteration
gradients over `num_samples` noisy passes, and reorder the result to
channel-last layout with `np.transpose(gradients, (0, 2, 3, 1))`.
`model` is the forward pass, `gradOracle` the autograd backward pass
(`torch.autograd.grad` of the label-selected outputs), `noises` the
sequence of `np.random.randn` draws.  `num_samples = 0` leaves
`gradients` as the integer `0`, so `gradients / num_samples` raises
`ZeroDivisionError`. -/
def _smooth_grad_torch
    (model : NDArray → NDArray)
    (gradOracle : NDArray → Option (List ℤ) → NDArray)
    (noises : Nat → NDArray)
    (X : Image) (y : YParam)
    (preprocess_function : Option (Image → NDArray))
    (mode : String) (num_samples : Nat) (sigma : ℚ) :
    Except PyErr (NDArray × Option (List ℤ)) :=
  let inputs := workingInputs preprocess_function X
  let outputs := model inputs
  match resolveLabels mode y X.pyLen outputs with
  | .error e => .error e
  | .ok labels =>
      if num_samples = 0 then .error .zeroDivisionError
      else
        let sigmaEff := sigma * (inputs.npMax - inputs.npMin)
        let grads := perIterGrads gradOracle noises inputs sigmaEff labels num_samples
        let gradients := (accumGrads grads).smul (1 / (num_samples : ℚ))
        match gradients.transpose0231 with
        | .error e => .error e
        | .ok g => .ok (g, labels)

/-- `_smooth_grad_tf`: same structure as the torch engine but without the
final axis reordering. -/
def _smooth_grad_tf
    (model : NDArray → NDArray)
    (gradOracle : NDArray → Option (List ℤ) → NDArray)
    (noises : Nat → NDArray)
    (X : Image) (y : YParam)
    (preprocess_function : Option (Image → NDArray))
    (mode : String) (num_samples : Nat) (sigma : ℚ) :
    Except PyErr (NDArray × Option (List ℤ)) :=
  let inputs := workingInputs preprocess_function X
  match resolveLabels mode y X.pyLen (model inputs) with
  | .error e => .error e
  | .ok labels =>
      if num_samples = 0 then .error .zeroDivisionError
      else
        let sigmaEff := sigma * (inputs.npMax - inputs.npMin)
        let grads := perIterGrads gradOracle noises inputs sigmaEff labels num_samples
        .ok ((accumGrads grads).smul (1 / (num_samples : ℚ)), labels)

/-- A model instance as the dispatcher sees it: whether it is an instance
of `torch.nn.Module`, whether it is an instance of `tf.keras.Model`, and
the name of its actual type (what Python's `type(model)` prints in the
error message). -/
structure PyModel where
  isNNModule : Bool
  isKerasModel : Bool
  typeName : String
deriving DecidableEq, Repr

/-- `smooth_grad`: checks torch availability and `nn.Module` membership
first and delegates to the torch engine; otherwise checks tensorflow
availability and `tf.keras.Model` membership and delegates to the
tensorflow engine; otherwise raises a `ValueError` naming the model's
actual type.  The two engine calls are abstracted as the values they
would return. -/
def smooth_grad
    (torchAvailable tfAvailable : Bool)
    (model : PyModel)
    (torchEngineResult tfEngineResult : Except PyErr (NDArray × Option (List ℤ))) :
    Except PyErr (NDArray × Option (List ℤ)) :=
  if torchAvailable && model.isNNModule then torchEngineResult
  else if tfAvailable && model.isKerasModel then tfEngineResult
  else
    .error (.valueError
      ("`model` should be a tf.keras.Model or a torch.nn.Module instead of "
        ++ model.typeName))

/-- `_forward_hook` of `_guided_bp_torch`: appends the module's output to
the `relu_outputs` stack. -/
def _forward_hook (relu_outputs : List NDArray) (outputs : NDArray) :
    List NDArray :=
  relu_outputs ++ [outputs]

/-- `_backward_hook` of `_guided_bp_torch`: takes the most recently
recorded activation, sets its strictly positive entries to `1` in place
(entries that are not strictly positive keep their recorded value),
multiplies elementwise by the incoming gradient clamped to be
non-negative, pops the recorded activation, and returns the product as
the outgoing gradient.  An empty stack raises an `IndexError` (Python
`relu_outputs[-1]`). -/
def _backward_hook (relu_outputs : List NDArray) (gradIn : NDArray) :
    Except PyErr (NDArray × List NDArray) :=
  match relu_outputs.getLast? with
  | Option.none => .error .indexError
  | Option.some acts =>
      let activations := acts.emap fun v => if 0 < v then 1 else v
      let modified_grad_out := activations.mul (gradIn.emap fun v => max v 0)
      .ok (modified_grad_out, relu_outputs.dropLast)

/-- `_guided_bp_torch`: performs the same input preparation and label
resolution as the SmoothGrad engine, then initializes `hooks = []` and
`relu_outputs = []`, defines the two hook closures without ever
registering them on any layer, runs `try: pass` with a `finally` block
that removes the (zero) registered hooks, and falls off the end of the
function, returning `None`.  The result records the list of registered
hook handles together with the returned value. -/
def _guided_bp_torch
    (model : NDArray → NDArray)
    (X : Image) (y : YParam)
    (preprocess_function : Option (Image → NDArray))
    (mode : String) (num_samples : Nat) (sigma : ℚ) :
    Except PyErr (List Nat × Option (NDArray × Option (List ℤ))) :=
  let inputs := workingInputs preprocess_function X
  let outputs := model inputs
  match resolveLabels mode y X.pyLen outputs with
  | .error e => .error e
  | .ok _ =>
      let hooks : List Nat := []
      .ok (hooks, Option.none)

/-- C1: with batch size 1 and a preprocessing function, `_resize` returns
a new unbatched channel-last image whose pixel data is
`(r * x + min_a - r * min_b).astype(int)`, where `x` is the squeezed
(and, when its leading dimension has size 3, channel-last-transposed)
processed array, `min_a`/`max_a` are the raw image's min/max,
`min_b`/`max_b` are the min/max of `x`, and
`r = (max_a - min_a) / (max_b - min_b + 1e-8)`. -/
theorem resize_affine_map (f : Image → NDArray) (image : Image) (x : NDArray)
    (h1 : image.shape.headD 0 = 1)
    (hx : squeezeTranspose (f image) = Except.ok x) :
    GradMixin._resize (some f) image =
      Except.ok
        ⟨x.emap fun v =>
            ((astypeInt
              ((image.toNumpy.npMax - image.toNumpy.npMin) /
                  (x.npMax - x.npMin + epsResize) * v
                + image.toNumpy.npMin
                - (image.toNumpy.npMax - image.toNumpy.npMin) /
                    (x.npMax - x.npMin + epsResize) * x.npMin) : ℤ) : ℚ),
         false, true⟩ := by
  unfold GradMixin._resize
  rw [if_neg (fun hc => hc h1)]
  dsimp only
  rw [hx]

/-- C1 witness: a concrete 1-instance image and preprocessing function. -/
theorem resize_affine_map_witness :
    (⟨⟨[1, 2], [10, 20]⟩, true, false⟩ : Image).shape.headD 0 = 1 ∧
    squeezeTranspose ((fun _ => (⟨[2], [0, 1]⟩ : NDArray))
        (⟨⟨[1, 2], [10, 20]⟩, true, false⟩ : Image)) =
      Except.ok (⟨[2], [0, 1]⟩ : NDArray) ∧
    GradMixin._resize (some fun _ => (⟨[2], [0, 1]⟩ : NDArray))
        ⟨⟨[1, 2], [10, 20]⟩, true, false⟩ =
      Except.ok
        ⟨(⟨[2], [0, 1]⟩ : NDArray).emap fun v =>
            ((astypeInt
              (((⟨⟨[1, 2], [10, 20]⟩, true, false⟩ : Image).toNumpy.npMax -
                  (⟨⟨[1, 2], [10, 20]⟩, true, false⟩ : Image).toNumpy.npMin) /
                  ((⟨[2], [0, 1]⟩ : NDArray).npMax - (⟨[2], [0, 1]⟩ : NDArray).npMin + epsResize) * v
                + (⟨⟨[1, 2], [10, 20]⟩, true, false⟩ : Image).toNumpy.npMin
                - ((⟨⟨[1, 2], [10, 20]⟩, true, false⟩ : Image).toNumpy.npMax -
                    (⟨⟨[1, 2], [10, 20]⟩, true, false⟩ : Image).toNumpy.npMin) /
                    ((⟨[2], [0, 1]⟩ : NDArray).npMax - (⟨[2], [0, 1]⟩ : NDArray).npMin + epsResize) *
                    (⟨[2], [0, 1]⟩ : NDArray).npMin) : ℤ) : ℚ),
         false, true⟩ ∧
    GradMixin._resize (some fun _ => (⟨[2], [0, 1]⟩ : NDArray))
        ⟨⟨[1, 2], [10, 20]⟩, true, false⟩ =
      Except.ok ⟨⟨[2], [10, 19]⟩, false, true⟩ :=
  ⟨rfl, rfl, resize_affine_map _ _ _ rfl rfl, by with_unfolding_all rfl⟩

/-- C2: with batch size 1 and no preprocessing function, `_resize`
returns the input image itself, all container attributes included. -/
theorem resize_identity (image : Image) (h1 : image.shape.headD 0 = 1) :
    GradMixin._resize Option.none image = Except.ok image := by
  unfold GradMixin._resize
  rw [if_neg (fun hc => hc h1)]

/-- C2 witness. -/
theorem resize_identity_witness :
    (⟨⟨[1, 3], [7, 8, 9]⟩, true, true⟩ : Image).shape.headD 0 = 1 ∧
    GradMixin._resize Option.none ⟨⟨[1, 3], [7, 8, 9]⟩, true, true⟩ =
      Except.ok ⟨⟨[1, 3], [7, 8, 9]⟩, true, true⟩ :=
  ⟨rfl, resize_identity _ rfl⟩

/-- C3: with a leading shape dimension greater than 1, `_resize` fails
with an assertion error whether or not a preprocessing function is
supplied. -/
theorem resize_batch_assert (preprocess_function : Option (Image → NDArray))
    (image : Image) (h : 1 < image.shape.headD 0) :
    GradMixin._resize preprocess_function image =
      Except.error PyErr.assertionError := by
  have h1 : image.shape.headD 0 ≠ 1 := by omega
  unfold GradMixin._resize
  exact if_pos h1

/-- C3 witness: a 2-instance image, with and without a preprocessing
function. -/
theorem resize_batch_assert_witness :
    1 < (⟨⟨[2, 2], [1, 2, 3, 4]⟩, true, false⟩ : Image).shape.headD 0 ∧
    GradMixin._resize Option.none ⟨⟨[2, 2], [1, 2, 3, 4]⟩, true, false⟩ =
      Except.error PyErr.assertionError ∧
    GradMixin._resize (some Image.toNumpy) ⟨⟨[2, 2], [1, 2, 3, 4]⟩, true, false⟩ =
      Except.error PyErr.assertionError :=
  ⟨by decide,
   resize_batch_assert _ _ (by decide),
   resize_batch_assert _ _ (by decide)⟩

/-- C4: when the model is neither a torch `nn.Module` with torch
installed nor a `tf.keras.Model` with tensorflow installed, `smooth_grad`
raises a `ValueError` naming the model's actual type; and the torch check
is performed first: a torch `nn.Module` with torch installed is always
routed to the torch engine, whatever the tensorflow side says. -/
theorem smooth_grad_dispatch_spec
    (torchAvailable tfAvailable : Bool) (model : PyModel)
    (torchEngineResult tfEngineResult : Except PyErr (NDArray × Option (List ℤ))) :
    (¬(torchAvailable = true ∧ model.isNNModule = true) →
      ¬(tfAvailable = true ∧ model.isKerasModel = true) →
      smooth_grad torchAvailable tfAvailable model torchEngineResult tfEngineResult =
        Except.error (PyErr.valueError
          ("`model` should be a tf.keras.Model or a torch.nn.Module instead of "
            ++ model.typeName)))
    ∧ (torchAvailable = true → model.isNNModule = true →
        smooth_grad torchAvailable tfAvailable model torchEngineResult tfEngineResult =
          torchEngineResult) := by
  constructor
  · intro h1 h2
    have e1 : (torchAvailable && model.isNNModule) = false := by
      cases torchAvailable <;> cases hm : model.isNNModule <;> simp_all
    have e2 : (tfAvailable && model.isKerasModel) = false := by
      cases tfAvailable <;> cases hm : model.isKerasModel <;> simp_all
    simp [smooth_grad, e1, e2]
  · intro h1 h2
    simp [smooth_grad, h1, h2]

/-- C4 witness: a model of type `Foo` claimed by neither framework, with
both frameworks installed; and a torch module with both installed. -/
theorem smooth_grad_dispatch_spec_witness :
    smooth_grad true true ⟨false, false, "Foo"⟩
        (Except.error PyErr.indexError) (Except.error PyErr.axisError) =
      Except.error (PyErr.valueError
        ("`model` should be a tf.keras.Model or a torch.nn.Module instead of "
          ++ (⟨false, false, "Foo"⟩ : PyModel).typeName)) ∧
    smooth_grad true true ⟨true, true, "Net"⟩
        (Except.error PyErr.indexError) (Except.error PyErr.axisError) =
      Except.error PyErr.indexError :=
  ⟨(smooth_grad_dispatch_spec true true ⟨false, false, "Foo"⟩ _ _).1
      (by decide) (by decide),
   (smooth_grad_dispatch_spec true true ⟨true, true, "Net"⟩ _ _).2 rfl rfl⟩

/-- C5: in classification mode, calling either SmoothGrad engine with a
single integer label `k` gives exactly the same result as calling it with
the length-`len(X)` sequence `[k, ..., k]`. -/
theorem smooth_grad_label_broadcast
    (model : NDArray → NDArray) (gradOracle : NDArray → Option (List ℤ) → NDArray)
    (noises : Nat → NDArray) (X : Image) (k : ℤ)
    (preprocess_function : Option (Image → NDArray))
    (num_samples : Nat) (sigma : ℚ) :
    _smooth_grad_torch model gradOracle noises X (YParam.int k)
        preprocess_function "classification" num_samples sigma =
      _smooth_grad_torch model gradOracle noises X
        (YParam.seq (List.replicate X.pyLen k))
        preprocess_function "classification" num_samples sigma
    ∧
    _smooth_grad_tf model gradOracle noises X (YParam.int k)
        preprocess_function "classification" num_samples sigma =
      _smooth_grad_tf model gradOracle noises X
        (YParam.seq (List.replicate X.pyLen k))
        preprocess_function "classification" num_samples sigma := by
  have h : ∀ b, resolveLabels "classification" (YParam.int k) X.pyLen b =
      resolveLabels "classification" (YParam.seq (List.replicate X.pyLen k)) X.pyLen b := by
    intro b
    simp [resolveLabels]
  unfold _smooth_grad_torch _smooth_grad_tf
  dsimp only
  rw [h]
  exact ⟨rfl, rfl⟩

/-- C6: in classification mode, a label sequence whose length differs
from `len(X)` makes both SmoothGrad engines fail with an assertion error,
for every model, gradient oracle and noise sequence (so before any
gradient is computed). -/
theorem smooth_grad_label_mismatch
    (model : NDArray → NDArray) (gradOracle : NDArray → Option (List ℤ) → NDArray)
    (noises : Nat → NDArray) (X : Image) (ys : List ℤ)
    (preprocess_function : Option (Image → NDArray))
    (num_samples : Nat) (sigma : ℚ)
    (h : ys.length ≠ X.pyLen) :
    _smooth_grad_torch model gradOracle noises X (YParam.seq ys)
        preprocess_function "classification" num_samples sigma =
      Except.error PyErr.assertionError
    ∧
    _smooth_grad_tf model gradOracle noises X (YParam.seq ys)
        preprocess_function "classification" num_samples sigma =
      Except.error PyErr.assertionError := by
  have hne : X.pyLen ≠ ys.length := fun e => h e.symm
  have h2 : ∀ b, resolveLabels "classification" (YParam.seq ys) X.pyLen b =
      Except.error PyErr.assertionError := by
    intro b
    simp [resolveLabels, hne]
  unfold _smooth_grad_torch _smooth_grad_tf
  dsimp only
  rw [h2]
  exact ⟨rfl, rfl⟩

/-- C6 witness: a 1-instance image with a length-2 label sequence. -/
theorem smooth_grad_label_mismatch_witness :
    ([0, 0] : List ℤ).length ≠ (⟨⟨[1, 2], [1, 5]⟩, true, false⟩ : Image).pyLen ∧
    _smooth_grad_torch id (fun x _ => x) (fun _ => ⟨[1, 2], [0, 0]⟩)
        ⟨⟨[1, 2], [1, 5]⟩, true, false⟩ (YParam.seq [0, 0])
        Option.none "classification" 1 0 =
      Except.error PyErr.assertionError ∧
    _smooth_grad_tf id (fun x _ => x) (fun _ => ⟨[1, 2], [0, 0]⟩)
        ⟨⟨[1, 2], [1, 5]⟩, true, false⟩ (YParam.seq [0, 0])
        Option.none "classification" 1 0 =
      Except.error PyErr.assertionError :=
  ⟨by decide,
   (smooth_grad_label_mismatch id (fun x _ => x) (fun _ => ⟨[1, 2], [0, 0]⟩)
      ⟨⟨[1, 2], [1, 5]⟩, true, false⟩ [0, 0] Option.none 1 0 (by decide)).1,
   (smooth_grad_label_mismatch id (fun x _ => x) (fun _ => ⟨[1, 2], [0, 0]⟩)
      ⟨⟨[1, 2], [1, 5]⟩, true, false⟩ [0, 0] Option.none 1 0 (by decide)).2⟩

/-- C7: in classification mode with `y` absent, whenever a SmoothGrad
engine returns a pair, its second component is the arg-max (over the last
axis, cast to integer) of the baseline model output on the working
input. -/
theorem smooth_grad_argmax_labels
    (model : NDArray → NDArray) (gradOracle : NDArray → Option (List ℤ) → NDArray)
    (noises : Nat → NDArray) (X : Image)
    (preprocess_function : Option (Image → NDArray))
    (num_samples : Nat) (sigma : ℚ) :
    (∀ g ls,
      _smooth_grad_torch model gradOracle noises X YParam.none
          preprocess_function "classification" num_samples sigma = Except.ok (g, ls) →
      ls = some (npArgmaxLast (model (workingInputs preprocess_function X))))
    ∧
    (∀ g ls,
      _smooth_grad_tf model gradOracle noises X YParam.none
          preprocess_function "classification" num_samples sigma = Except.ok (g, ls) →
      ls = some (npArgmaxLast (model (workingInputs preprocess_function X)))) := by
  have hr : resolveLabels "classification" YParam.none X.pyLen
      (model (workingInputs preprocess_function X)) =
      Except.ok (some (npArgmaxLast (model (workingInputs preprocess_function X)))) := by
    simp [resolveLabels]
  constructor
  · intro g ls h
    unfold _smooth_grad_torch at h
    dsimp only at h
    rw [hr] at h
    dsimp only at h
    split at h
    · simp at h
    · split at h
      · simp at h
      · simp only [Except.ok.injEq, Prod.mk.injEq] at h
        exact h.2.symm
  · intro g ls h
    unfold _smooth_grad_tf at h
    dsimp only at h
    rw [hr] at h
    dsimp only at h
    split at h
    · simp at h
    · simp only [Except.ok.injEq, Prod.mk.injEq] at h
      exact h.2.symm

/-- C7 witness: a concrete classification run whose single row has its
maximum at index 1. -/
theorem smooth_grad_argmax_labels_witness :
    _smooth_grad_torch id (fun _ _ => ⟨[1, 1, 1, 1], [2]⟩)
        (fun _ => ⟨[1, 2], [0, 0]⟩) ⟨⟨[1, 2], [1, 5]⟩, true, false⟩ YParam.none
        Option.none "classification" 1 0 =
      Except.ok (⟨[1, 1, 1, 1], [2]⟩, some [1]) ∧
    (some [1] : Option (List ℤ)) =
      some (npArgmaxLast (id (workingInputs Option.none ⟨⟨[1, 2], [1, 5]⟩, true, false⟩))) :=
  ⟨by with_unfolding_all rfl,
   (smooth_grad_argmax_labels id (fun _ _ => ⟨[1, 1, 1, 1], [2]⟩)
      (fun _ => ⟨[1, 2], [0, 0]⟩) ⟨⟨[1, 2], [1, 5]⟩, true, false⟩
      Option.none 1 0).1 ⟨[1, 1, 1, 1], [2]⟩ (some [1]) (by with_unfolding_all rfl)⟩

/-- C8: with `num_samples = K ≥ 1` and fixed noise draws, each SmoothGrad
engine returns the arithmetic mean of the `K` per-iteration gradients,
where iteration `i` takes the gradient at the working input perturbed by
the noise draw `noises i` scaled by
`sigma * (max(input) - min(input))`; the torch engine additionally
reorders the averaged array to channel-last layout
(`np.transpose(-, (0, 2, 3, 1))`), a reindexing of the same mean. -/
theorem smooth_grad_averaging
    (model : NDArray → NDArray) (gradOracle : NDArray → Option (List ℤ) → NDArray)
    (noises : Nat → NDArray) (X : Image) (y : YParam)
    (preprocess_function : Option (Image → NDArray))
    (mode : String) (K : Nat) (sigma : ℚ) (labels : Option (List ℤ))
    (hK : 1 ≤ K)
    (hres : resolveLabels mode y X.pyLen (model (workingInputs preprocess_function X)) =
      Except.ok labels) :
    _smooth_grad_tf model gradOracle noises X y preprocess_function mode K sigma =
      Except.ok
        (meanNDArrays ((List.range K).map fun i =>
          gradOracle
            ((workingInputs preprocess_function X).add
              ((noises i).smul
                (sigma * ((workingInputs preprocess_function X).npMax -
                  (workingInputs preprocess_function X).npMin))))
            labels),
         labels)
    ∧
    _smooth_grad_torch model gradOracle noises X y preprocess_function mode K sigma =
      Except.map (fun g => (g, labels))
        ((meanNDArrays ((List.range K).map fun i =>
          gradOracle
            ((workingInputs preprocess_function X).add
              ((noises i).smul
                (sigma * ((workingInputs preprocess_function X).npMax -
                  (workingInputs preprocess_function X).npMin))))
            labels)).transpose0231) := by
  have hKne : ¬ K = 0 := by omega
  constructor
  · unfold _smooth_grad_tf
    dsimp only
    rw [hres]
    dsimp only
    rw [if_neg hKne]
    unfold meanNDArrays perIterGrads
    simp only [List.length_map, List.length_range]
  · unfold _smooth_grad_torch
    dsimp only
    rw [hres]
    dsimp only
    rw [if_neg hKne]
    unfold meanNDArrays perIterGrads
    simp only [List.length_map, List.length_range]
    split
    next e heq => rw [heq]; rfl
    next g heq => rw [heq]; rfl

/-- C8 witness: a concrete run with `K = 2` and an identity gradient
oracle. -/
theorem smooth_grad_averaging_witness :
    (1 ≤ 2) ∧
    resolveLabels "classification" (YParam.int 0)
        (⟨⟨[1, 1, 1, 2], [0, 2]⟩, true, false⟩ : Image).pyLen
        (id (workingInputs Option.none ⟨⟨[1, 1, 1, 2], [0, 2]⟩, true, false⟩)) =
      Except.ok (some [0]) ∧
    _smooth_grad_tf id (fun x _ => x) (fun _ => ⟨[1, 1, 1, 2], [1, 1]⟩)
        ⟨⟨[1, 1, 1, 2], [0, 2]⟩, true, false⟩ (YParam.int 0)
        Option.none "classification" 2 1 =
      Except.ok
        (meanNDArrays ((List.range 2).map fun i =>
          (fun x _ => x)
            ((workingInputs Option.none ⟨⟨[1, 1, 1, 2], [0, 2]⟩, true, false⟩).add
              (((fun _ => (⟨[1, 1, 1, 2], [1, 1]⟩ : NDArray)) i).smul
                (1 * ((workingInputs Option.none ⟨⟨[1, 1, 1, 2], [0, 2]⟩, true, false⟩).npMax -
                  (workingInputs Option.none ⟨⟨[1, 1, 1, 2], [0, 2]⟩, true, false⟩).npMin))))
            (some [0])),
         some [0]) :=
  ⟨by decide, rfl,
   (smooth_grad_averaging id (fun x _ => x) (fun _ => ⟨[1, 1, 1, 2], [1, 1]⟩)
      ⟨⟨[1, 1, 1, 2], [0, 2]⟩, true, false⟩ (YParam.int 0)
      Option.none "classification" 2 1 (some [0]) (by decide) rfl).1⟩

/-- Auxiliary: `getD` through `List.zipWith` at an in-range index. -/
theorem zipWith_getD (f : ℚ → ℚ → ℚ) (a b : List ℚ) (i : Nat)
    (ha : i < a.length) (hb : i < b.length) :
    (List.zipWith f a b).getD i 0 = f (a.getD i 0) (b.getD i 0) := by
  induction a generalizing b i with
  | nil => simp at ha
  | cons x xs ih =>
    cases b with
    | nil => simp at hb
    | cons y ys =>
      cases i with
      | zero => rfl
      | succ n =>
        simp only [List.zipWith_cons_cons, List.getD_cons_succ]
        exact ih ys n (by simpa using ha) (by simpa using hb)

/-- Auxiliary: `getD` through `List.map` at an in-range index. -/
theorem map_getD (f : ℚ → ℚ) (a : List ℚ) (i : Nat) (ha : i < a.length) :
    (a.map f).getD i 0 = f (a.getD i 0) := by
  induction a generalizing i with
  | nil => simp at ha
  | cons x xs ih =>
    cases i with
    | zero => rfl
    | succ n =>
      simp only [List.map_cons, List.getD_cons_succ]
      exact ih n (by simpa using ha)

/-- Auxiliary: an in-range `getD` value is a member of the list. -/
theorem getD_mem_self (a : List ℚ) (i : Nat) (ha : i < a.length) :
    a.getD i 0 ∈ a := by
  induction a generalizing i with
  | nil => simp at ha
  | cons x xs ih =>
    cases i with
    | zero => simp
    | succ n =>
      simp only [List.getD_cons_succ]
      exact List.mem_cons_of_mem _ (ih n (by simpa using ha))

/-- C9 counterexample: for the recorded activation tensor `[-2]` and
incoming gradient `[3]` of the same shape, position 0 has a non-positive
activation, yet the hook returns `-6` there instead of `0`: the in-place
update `activations[activations > 0] = 1` sets only the strictly positive
entries to one and leaves non-positive entries at their recorded value,
which is a true 0/1 mask only when the recorded activations are
non-negative. -/
theorem backward_hook_counterexample :
    ((-2 : ℚ) ≤ 0) ∧
    _backward_hook [⟨[1], [-2]⟩] ⟨[1], [3]⟩ =
      Except.ok (⟨[1], [-6]⟩, []) ∧
    ((-6 : ℚ) ≠ 0) :=
  ⟨by norm_num, by with_unfolding_all rfl, by norm_num⟩

/-- C9 amended: restricted to elementwise non-negative recorded
activations (which is exactly what rectified-linear layers output), the
backward hook pops the most recent activation and returns an outgoing
gradient that keeps its shape, is `0` at every position where the
activation is non-positive, is `0` at every position where the incoming
gradient is negative, and equals the incoming gradient elsewhere:
position `i` holds `max (gradIn i) 0` when the activation there is
strictly positive and `0` otherwise. -/
theorem backward_hook_amended
    (stack : List NDArray) (acts gradIn out : NDArray) (rest : List NDArray)
    (hlast : stack.getLast? = some acts)
    (hpos : ∀ v ∈ acts.data, 0 ≤ v)
    (hlen : gradIn.data.length = acts.data.length)
    (hres : _backward_hook stack gradIn = Except.ok (out, rest)) :
    rest = stack.dropLast ∧
    out.shape = acts.shape ∧
    out.data.length = acts.data.length ∧
    ∀ i, i < acts.data.length →
      out.data.getD i 0 =
        if 0 < acts.data.getD i 0 then max (gradIn.data.getD i 0) 0 else 0 := by
  unfold _backward_hook at hres
  rw [hlast] at hres
  dsimp only at hres
  simp only [Except.ok.injEq, Prod.mk.injEq] at hres
  obtain ⟨hout, hrest⟩ := hres
  subst hout
  subst hrest
  refine ⟨rfl, rfl, ?_, ?_⟩
  · simp [NDArray.mul, NDArray.emap, hlen]
  · intro i hi
    show (List.zipWith (fun a g => a * g)
        (acts.data.map fun v => if 0 < v then 1 else v)
        (gradIn.data.map fun v => max v 0)).getD i 0 = _
    rw [zipWith_getD _ _ _ i (by simpa using hi) (by simp [hlen]; omega)]
    rw [map_getD _ _ _ hi, map_getD _ _ _ (by omega : i < gradIn.data.length)]
    by_cases hp : 0 < acts.data.getD i 0
    · rw [if_pos hp, if_pos hp, one_mul]
    · have hz : acts.data.getD i 0 = 0 :=
        le_antisymm (not_lt.1 hp) (hpos _ (getD_mem_self _ _ hi))
      rw [if_neg hp, if_neg hp, hz, zero_mul]

/-- C9 amended witness: activation `[0, 5]`, incoming gradient
`[-1, 4]`: output is `[0, 4]`, zeroing the zero-activation position and
the negative incoming gradient, keeping the rest. -/
theorem backward_hook_amended_witness :
    _backward_hook [(⟨[2], [0, 5]⟩ : NDArray)] ⟨[2], [-1, 4]⟩ =
      Except.ok (⟨[2], [0, 4]⟩, []) ∧
    ([] : List NDArray) = ([(⟨[2], [0, 5]⟩ : NDArray)]).dropLast ∧
    (⟨[2], [0, 4]⟩ : NDArray).data.getD 0 0 =
      (if 0 < (⟨[2], [0, 5]⟩ : NDArray).data.getD 0 0
        then max ((⟨[2], [-1, 4]⟩ : NDArray).data.getD 0 0) 0 else 0) ∧
    (⟨[2], [0, 4]⟩ : NDArray).data.getD 1 0 =
      (if 0 < (⟨[2], [0, 5]⟩ : NDArray).data.getD 1 0
        then max ((⟨[2], [-1, 4]⟩ : NDArray).data.getD 1 0) 0 else 0) :=
  have h := backward_hook_amended [(⟨[2], [0, 5]⟩ : NDArray)] ⟨[2], [0, 5]⟩
    ⟨[2], [-1, 4]⟩ ⟨[2], [0, 4]⟩ [] rfl (by norm_num) rfl
    (by with_unfolding_all rfl)
  ⟨by with_unfolding_all rfl, h.1, h.2.2.2 0 (by norm_num), h.2.2.2 1 (by norm_num)⟩

/-- C10: whenever label resolution succeeds, `_guided_bp_torch` registers
no forward or backward interceptors (its hook handle list stays empty:
the defined hook closures are never attached to any layer), performs no
sampling loop, and returns `None` rather than a gradients-labels pair. -/
theorem guided_bp_no_hooks
    (model : NDArray → NDArray) (X : Image) (y : YParam)
    (preprocess_function : Option (Image → NDArray))
    (mode : String) (num_samples : Nat) (sigma : ℚ)
    (labels : Option (List ℤ))
    (hres : resolveLabels mode y X.pyLen (model (workingInputs preprocess_function X)) =
      Except.ok labels) :
    _guided_bp_torch model X y preprocess_function mode num_samples sigma =
      Except.ok (([] : List Nat), Option.none) := by
  unfold _guided_bp_torch
  dsimp only
  rw [hres]

/-- C10 witness: a regression-mode call, whose label resolution always
succeeds (labels cleared to `None`). -/
theorem guided_bp_no_hooks_witness :
    resolveLabels "regression" (YParam.int 7)
        (⟨⟨[1, 2], [1, 5]⟩, true, false⟩ : Image).pyLen
        (id (workingInputs Option.none ⟨⟨[1, 2], [1, 5]⟩, true, false⟩)) =
      Except.ok Option.none ∧
    _guided_bp_torch id ⟨⟨[1, 2], [1, 5]⟩, true, false⟩ (YParam.int 7)
        Option.none "regression" 1 0 =
      Except.ok (([] : List Nat), Option.none) :=
  ⟨by with_unfolding_all rfl,
   guided_bp_no_hooks id ⟨⟨[1, 2], [1, 5]⟩, true, false⟩ (YParam.int 7)
     Option.none "regression" 1 0 Option.none (by with_unfolding_all rfl)⟩
